import Mathlib

/-!
Verification of the nest-formdata upload library against its design
specification. The FileData class (src/classes/FileData.ts) is embedded
shallowly. The parts of the design that do not appear in the sources at
hand (the interception pipeline and the validation predicates) are
modelled from the specification text and marked as such in their doc
comments.
-/

/-- Modelled from the spec: the MimeType enumeration of
interfaces/file.interface is not among the sources. The spec describes it as a
closed enumeration of known MIME strings "falling back to the raw string if
unrecognized", so every value is carried by its underlying string. -/
abbrev MimeType := String

/-- Shallow embedding of the FileData class of src/classes/FileData.ts.
The constructor declares eight public fields and stores each argument
verbatim. TypeScript `number` is embedded as `Int`, `Buffer` as a list of
bytes. -/
structure FileData where
  originalFileName : String
  fileName : String
  fileNameFull : String
  encoding : String
  mimetype : MimeType
  fileExtension : String
  fileSize : Int
  buffer : List UInt8
  deriving DecidableEq

/-- The spec's persistence-error taxonomy for a failing saver; the error
channel a TypeScript method could throw into. -/
inductive SaveError where
  | persistenceError : String → SaveError
  deriving DecidableEq

/-- Shallow embedding of the method FileData.save
(src/classes/FileData.ts, lines 21-23). Its whole body is `return "" as T`
(with `T = string` by default): it performs no assignment, invokes no file
saver, and has no throwing branch. Since a TypeScript method may in general
mutate `this` and throw, the embedding returns the post-state paired with the
returned string inside `Except`. -/
def FileData.save (fd : FileData) : Except SaveError (FileData × String) :=
  Except.ok (fd, "")

/-- The descriptor state after `n` successive calls to save. -/
def FileData.saveIter (fd : FileData) : Nat → FileData
  | 0 => fd
  | n + 1 =>
    match (FileData.saveIter fd n).save with
    | Except.ok p => p.1
    | Except.error _ => FileData.saveIter fd n

/-- Modelled from the spec: the interceptor (not among the sources) derives a
file extension as "the portion after the last `.`, empty if none". This
helper returns the suffix of the character list after its last dot, or `none`
when no dot occurs. -/
def extAfterLastDot : List Char → Option (List Char)
  | [] => none
  | c :: cs =>
    match extAfterLastDot cs with
    | some e => some e
    | none => if c = '.' then some cs else none

/-- Modelled from the spec: the extension of a filename, the empty string when
the name has no dot. -/
def fileExtensionOf (s : String) : String :=
  match extAfterLastDot s.data with
  | some e => String.mk e
  | none => ""

/-- Modelled from the spec: the interception pipeline (not among the sources)
builds one FileData per file part: the assigned name comes from the naming
function, the full name appends the derived extension, the byte size is the
length of the content buffer, and the remaining metadata is passed through. -/
def buildFileDescriptor (originalName assignedName enc : String)
    (m : MimeType) (b : List UInt8) : FileData :=
  { originalFileName := originalName
    fileName := assignedName
    fileNameFull :=
      if fileExtensionOf originalName = "" then assignedName
      else assignedName ++ "." ++ fileExtensionOf originalName
    encoding := enc
    mimetype := m
    fileExtension := fileExtensionOf originalName
    fileSize := (b.length : Int)
    buffer := b }

/-- A form-data field value seen by the validation predicates: either a plain
string part or a file descriptor. -/
inductive FormValue where
  | str : String → FormValue
  | file : FileData → FormValue
  deriving DecidableEq

/-- Modelled from the spec: the presence predicate passes iff the value is a
FileData instance, not merely a truthy value. -/
def isFileDataCheck : FormValue → Bool
  | FormValue.file _ => true
  | FormValue.str _ => false

/-- Modelled from the spec: the MIME predicate passes iff the descriptor's
MIME type is a member of the caller-supplied allow-set. -/
def hasMimeTypeCheck (allowed : List MimeType) : FormValue → Bool
  | FormValue.file fd => allowed.contains fd.mimetype
  | FormValue.str _ => false

/-- Modelled from the spec: the minimum-size predicate passes iff the byte
size is at least the threshold, inclusive. -/
def minFileSizeCheck (minSize : Int) : FormValue → Bool
  | FormValue.file fd => decide (minSize ≤ fd.fileSize)
  | FormValue.str _ => false

/-- Modelled from the spec: the maximum-size predicate passes iff the byte
size is at most the threshold, inclusive. -/
def maxFileSizeCheck (maxSize : Int) : FormValue → Bool
  | FormValue.file fd => decide (fd.fileSize ≤ maxSize)
  | FormValue.str _ => false

/-- Modelled from the spec: with `each: true` the min-size, max-size and MIME
predicates must pass for every element of the sequence. -/
def validateEach (p : FormValue → Bool) (xs : List FormValue) : Bool :=
  xs.all p

/-- Modelled from the spec: with `each: true` the presence predicate
additionally fails on an empty sequence, there being no descriptor present to
validate. -/
def validateEachPresence (xs : List FormValue) : Bool :=
  !xs.isEmpty && xs.all isFileDataCheck

/-- The end-to-end example of the spec: file a.png with MIME image/png, its
content shortened to three bytes. -/
def examplePng : FileData :=
  { originalFileName := "a.png"
    fileName := "a"
    fileNameFull := "a.png"
    encoding := "7bit"
    mimetype := "image/png"
    fileExtension := "png"
    fileSize := 3
    buffer := [1, 2, 3] }

/-- A value of the public FileData constructor whose declared size disagrees
with its buffer: size 5 over an empty buffer. -/
def sizeMismatch : FileData :=
  { originalFileName := "a.txt"
    fileName := "a"
    fileNameFull := "a.txt"
    encoding := "7bit"
    mimetype := "text/plain"
    fileExtension := "txt"
    fileSize := 5
    buffer := [] }

theorem saveIter_fixed (fd : FileData) (n : Nat) : fd.saveIter n = fd := by
  induction n with
  | zero => rfl
  | succ k ih => simp [FileData.saveIter, ih, FileData.save]

theorem extAfterLastDot_eq_none (l : List Char) (h : '.' ∉ l) :
    extAfterLastDot l = none := by
  induction l with
  | nil => rfl
  | cons c cs ih =>
    rw [List.mem_cons, not_or] at h
    have hc : ¬ c = '.' := fun hc => h.1 hc.symm
    simp [extAfterLastDot, ih h.2, hc]

theorem extAfterLastDot_append (pre ext : List Char) (h : '.' ∉ ext) :
    extAfterLastDot (pre ++ '.' :: ext) = some ext := by
  induction pre with
  | nil => simp [extAfterLastDot, extAfterLastDot_eq_none ext h]
  | cons c cs ih => simp [extAfterLastDot, ih]

theorem fileExtensionOf_no_dot (s : String) (h : '.' ∉ s.data) :
    fileExtensionOf s = "" := by
  simp [fileExtensionOf, extAfterLastDot_eq_none s.data h]

theorem fileExtensionOf_append (pre ext : String) (h : '.' ∉ ext.data) :
    fileExtensionOf (pre ++ "." ++ ext) = ext := by
  have hd : (pre ++ "." ++ ext).data = pre.data ++ '.' :: ext.data := by
    simp [String.data_append]
  simp [fileExtensionOf, hd, extAfterLastDot_append pre.data ext.data h]

/-- Claim C1 fails on the code: at the spec's end-to-end input, save()
evaluates to the empty string and the unchanged descriptor, not to a location
produced by a persistence strategy such as the default saver's
./public/a.png. -/
theorem save_returns_empty_not_location :
    examplePng.save = Except.ok (examplePng, "") ∧ "./public/a.png" ≠ "" :=
  ⟨rfl, by decide⟩

/-- Claim C2 fails on the public constructor: a constructible descriptor whose
fileSize is 5 while its buffer holds 0 bytes. -/
theorem constructor_admits_size_mismatch :
    sizeMismatch.fileSize ≠ (sizeMismatch.buffer.length : Int) := by decide

/-- Claim C2 as amended: every descriptor built by the interception pipeline
(modelled from the spec) has fileSize equal to the exact byte length of its
buffer; the public constructor itself stores whatever size it is given. -/
theorem pipeline_fileSize_eq_buffer_length
    (name assigned enc : String) (m : MimeType) (b : List UInt8) :
    (buildFileDescriptor name assigned enc m b).fileSize
      = ((buildFileDescriptor name assigned enc m b).buffer.length : Int) := rfl

/-- Claim C3: any number of save() calls leaves every field of the descriptor
unchanged. -/
theorem save_preserves_all_fields (fd : FileData) (n : Nat) :
    (fd.saveIter n).originalFileName = fd.originalFileName ∧
    (fd.saveIter n).fileName = fd.fileName ∧
    (fd.saveIter n).fileNameFull = fd.fileNameFull ∧
    (fd.saveIter n).encoding = fd.encoding ∧
    (fd.saveIter n).mimetype = fd.mimetype ∧
    (fd.saveIter n).fileExtension = fd.fileExtension ∧
    (fd.saveIter n).fileSize = fd.fileSize ∧
    (fd.saveIter n).buffer = fd.buffer := by
  rw [saveIter_fixed]
  exact ⟨rfl, rfl, rfl, rfl, rfl, rfl, rfl, rfl⟩

/-- Claim C4 fails on the code: FileData declares no persisted-location field.
save() leaves the descriptor exactly as constructed, and a repeated call still
returns the constant empty string rather than a location recorded by the first
call. -/
theorem save_stores_no_location :
    examplePng.saveIter 1 = examplePng ∧
    (examplePng.saveIter 1).save = Except.ok (examplePng, "") :=
  ⟨rfl, rfl⟩

/-- Claim C5: a descriptor built by the spec-modelled pipeline has as its
fileExtension the substring of originalFileName after the last dot, and the
empty string when the name has no dot. -/
theorem pipeline_fileExtension_after_last_dot
    (name assigned enc : String) (m : MimeType) (b : List UInt8) :
    (('.' ∉ name.data →
        (buildFileDescriptor name assigned enc m b).fileExtension = "") ∧
      (∀ pre ext : String, name = pre ++ "." ++ ext → '.' ∉ ext.data →
        (buildFileDescriptor name assigned enc m b).fileExtension = ext)) := by
  constructor
  · intro h
    simp [buildFileDescriptor, fileExtensionOf_no_dot name h]
  · intro pre ext hname h
    simp [buildFileDescriptor, hname, fileExtensionOf_append pre ext h]

/-- Claim C6 fails on the code: no persistence strategy runs inside save(), so
no PersistenceError can reach its caller. On the spec's failing input save()
succeeds with the empty string instead of propagating the saver's error. -/
theorem save_cannot_propagate_persistence_error :
    (examplePng.save).isOk = true ∧
    examplePng.save ≠ Except.error (SaveError.persistenceError "disk full") :=
  ⟨rfl, fun h => Except.noConfusion h⟩

/-- Claim C7: with `each: true` on an empty sequence, the min-size, max-size
and MIME predicates pass vacuously, while the presence predicate fails. -/
theorem each_on_empty_sequence (minSize maxSize : Int) (allowed : List MimeType) :
    validateEach (minFileSizeCheck minSize) [] = true ∧
    validateEach (maxFileSizeCheck maxSize) [] = true ∧
    validateEach (hasMimeTypeCheck allowed) [] = true ∧
    validateEachPresence [] = false :=
  ⟨rfl, rfl, rfl, rfl⟩

/-- Claim C8: save() returns the empty string on every descriptor, leaves the
state unchanged, its result does not depend on the descriptor's contents, and
it still returns the empty string after any number of earlier calls. -/
theorem save_always_returns_empty_string (fd fd' : FileData) :
    fd.save = Except.ok (fd, "") ∧
    Except.map Prod.snd fd.save = Except.map Prod.snd fd'.save ∧
    (∀ n : Nat, Except.map Prod.snd ((fd.saveIter n).save) = Except.ok "") :=
  ⟨rfl, rfl, fun n => by rw [saveIter_fixed]; rfl⟩

/-- Claim C9: save() is total and never throws: it yields a success for every
descriptor, including those with an empty buffer, a nonpositive size or an
empty original name. -/
theorem save_total_never_throws (fd : FileData) : (fd.save).isOk = true := rfl

/-- Claim C10: the FileData constructor stores its eight arguments verbatim:
each public field of the constructed value equals the corresponding argument,
with no validation and no normalization, even when the declared size disagrees
with the buffer or the extension is unrelated to the name. -/
theorem constructor_stores_arguments_verbatim
    (o f ff e : String) (m : MimeType) (x : String) (s : Int) (b : List UInt8) :
    (FileData.mk o f ff e m x s b).originalFileName = o ∧
    (FileData.mk o f ff e m x s b).fileName = f ∧
    (FileData.mk o f ff e m x s b).fileNameFull = ff ∧
    (FileData.mk o f ff e m x s b).encoding = e ∧
    (FileData.mk o f ff e m x s b).mimetype = m ∧
    (FileData.mk o f ff e m x s b).fileExtension = x ∧
    (FileData.mk o f ff e m x s b).fileSize = s ∧
    (FileData.mk o f ff e m x s b).buffer = b :=
  ⟨rfl, rfl, rfl, rfl, rfl, rfl, rfl, rfl⟩
